import Mathlib

/-!
Shallow embedding of the andikas-cms client (TypeScript/React portfolio CMS)
and verification of its natural-language specification.

Conventions of the embedding:
* network responses are passed in as explicit `ApiResponse` values (the
  transport layer is external);
* JS exceptions become `Except String`; a function that catches all its
  exceptions returns a plain value;
* `localStorage` is an association list of string keys and values;
* React `useState` cells are gathered into explicit page-state structures,
  and each handler is a pure function from the incoming results and the
  current state to the next state together with an ordered list of
  observable events (network calls, toasts).
-/

/-- The uniform response envelope `{success: bool, data?: T, error?: string}`
from `src/types/index.ts` (`ApiResponse`). -/
structure ApiResponse (T : Type) where
  success : Bool
  data : Option T
  error : Option String
deriving DecidableEq

/-- The message of the thrown error: `response.data.error || fallback`.
JS `||` falls through on the empty string, so an empty server message is
replaced by the fallback as well. -/
def envMessage (error : Option String) (fallback : String) : String :=
  match error with
  | some e => if e = "" then fallback else e
  | none => fallback

/-- The `if (response.data.success && response.data.data) return data; throw ...`
pattern shared by every data-returning service method. -/
def unwrapData {T : Type} (fallback : String) (r : ApiResponse T) : Except String T :=
  match r.success, r.data with
  | true, some d => .ok d
  | _, _ => .error (envMessage r.error fallback)

/-- The `if (!response.data.success) throw ...` pattern of the delete methods,
which do not inspect the data field. -/
def unwrapSuccess (fallback : String) (r : ApiResponse Unit) : Except String Unit :=
  if r.success then .ok () else .error (envMessage r.error fallback)

/-! Entity records, from `src/types/index.ts`. -/

structure User where
  id : String
  email : String
  username : String
  name : String
deriving DecidableEq

structure Skill where
  id : String
  userId : String
  name : String
  icon : String
  createdAt : String
  updatedAt : String
deriving DecidableEq

structure ExperienceSkill where
  skill : Skill
deriving DecidableEq

structure Experience where
  id : String
  userId : String
  startYear : Int
  endYear : Option Int
  companyName : String
  description : Option String
  location : String
  createdAt : String
  updatedAt : String
  experienceSkills : Option (List ExperienceSkill)
deriving DecidableEq

structure Education where
  id : String
  userId : String
  year : String
  institutionName : String
  description : Option String
  createdAt : String
  updatedAt : String
deriving DecidableEq

structure CertificationSkill where
  skill : Skill
deriving DecidableEq

structure Certification where
  id : String
  userId : String
  name : String
  issuingOrganization : String
  year : Int
  description : Option String
  certificateLink : Option String
  createdAt : String
  updatedAt : String
  certificationSkills : Option (List CertificationSkill)
deriving DecidableEq

structure ProjectSkill where
  skill : Skill
deriving DecidableEq

structure Project where
  id : String
  userId : String
  title : String
  slug : String
  description : String
  content : String
  coverImage : Option String
  contentImages : List String
  publishedAt : Option String
  highlighted : Option Bool
  createdAt : String
  updatedAt : String
  projectSkills : Option (List ProjectSkill)
deriving DecidableEq

structure UserDetails where
  id : String
  userId : String
  name : String
  role : String
  description : Option String
  socialMedias : Option (List String)
  profilePhoto : Option String
  createdAt : String
  updatedAt : String
deriving DecidableEq

/-! Resource clients. Each method of `src/services/*.ts` is the uniform
unwrap applied to the envelope the transport returned, with the method's
fallback message. -/

def skillsGetAll (r : ApiResponse (List Skill)) : Except String (List Skill) :=
  unwrapData "Failed to fetch skills" r

def skillsGetById (r : ApiResponse Skill) : Except String Skill :=
  unwrapData "Failed to fetch skill" r

def skillsCreate (r : ApiResponse Skill) : Except String Skill :=
  unwrapData "Failed to create skill" r

def skillsUpdate (r : ApiResponse Skill) : Except String Skill :=
  unwrapData "Failed to update skill" r

def skillsDelete (r : ApiResponse Unit) : Except String Unit :=
  unwrapSuccess "Failed to delete skill" r

def experienceGetAll (r : ApiResponse (List Experience)) : Except String (List Experience) :=
  unwrapData "Failed to fetch experience" r

def experienceGetById (r : ApiResponse Experience) : Except String Experience :=
  unwrapData "Failed to fetch experience" r

def experienceCreate (r : ApiResponse Experience) : Except String Experience :=
  unwrapData "Failed to create experience" r

def experienceUpdate (r : ApiResponse Experience) : Except String Experience :=
  unwrapData "Failed to update experience" r

def experienceDelete (r : ApiResponse Unit) : Except String Unit :=
  unwrapSuccess "Failed to delete experience" r

def certificationsGetAll (r : ApiResponse (List Certification)) : Except String (List Certification) :=
  unwrapData "Failed to fetch certifications" r

def certificationsGetById (r : ApiResponse Certification) : Except String Certification :=
  unwrapData "Failed to fetch certification" r

def certificationsCreate (r : ApiResponse Certification) : Except String Certification :=
  unwrapData "Failed to create certification" r

def certificationsUpdate (r : ApiResponse Certification) : Except String Certification :=
  unwrapData "Failed to update certification" r

def certificationsDelete (r : ApiResponse Unit) : Except String Unit :=
  unwrapSuccess "Failed to delete certification" r

def educationGetAll (r : ApiResponse (List Education)) : Except String (List Education) :=
  unwrapData "Failed to fetch education" r

def educationGetById (r : ApiResponse Education) : Except String Education :=
  unwrapData "Failed to fetch education" r

def educationCreate (r : ApiResponse Education) : Except String Education :=
  unwrapData "Failed to create education" r

def educationUpdate (r : ApiResponse Education) : Except String Education :=
  unwrapData "Failed to update education" r

def educationDelete (r : ApiResponse Unit) : Except String Unit :=
  unwrapSuccess "Failed to delete education" r

def projectsGetAll (r : ApiResponse (List Project)) : Except String (List Project) :=
  unwrapData "Failed to fetch projects" r

def projectsGetBySlug (r : ApiResponse Project) : Except String Project :=
  unwrapData "Failed to fetch project" r

def projectsCreate (r : ApiResponse Project) : Except String Project :=
  unwrapData "Failed to create project" r

def projectsUpdate (r : ApiResponse Project) : Except String Project :=
  unwrapData "Failed to update project" r

def projectsDelete (r : ApiResponse Unit) : Except String Unit :=
  unwrapSuccess "Failed to delete project" r

/-- Source `userDetailsService.get` from `src/services/userDetails.ts`: unlike every
other method, on a non-success envelope or missing data it returns `null`
rather than throwing. -/
def userDetailsGet (r : ApiResponse UserDetails) : Option UserDetails :=
  match r.success, r.data with
  | true, some d => some d
  | _, _ => none

def userDetailsCreate (r : ApiResponse UserDetails) : Except String UserDetails :=
  unwrapData "Failed to create user details" r

def userDetailsUpdate (r : ApiResponse UserDetails) : Except String UserDetails :=
  unwrapData "Failed to update user details" r

/-! Image compression, from `src/lib/imageCompression.ts`. The
`browser-image-compression` transform is the external black box; its outcome
is passed in as an `Except`. -/

structure FileData where
  name : String
  size : Nat
  ftype : String
  lastModified : Nat
deriving DecidableEq

/-- Source `compressImage`: on transform success a fresh `File` is built from the
compressed bytes, keeping the input's `name` and stamping the current time;
any transform failure is caught and the original file is returned. -/
def compressImage (now : Nat) (file : FileData)
    (transformResult : Except String FileData) : FileData :=
  match transformResult with
  | .ok compressed =>
      { name := file.name, size := compressed.size
        ftype := compressed.ftype, lastModified := now }
  | .error _ => file

/-! Session storage and auth store, from `src/services/auth.ts` and
`src/store/authStore.ts`. `localStorage` is modelled as an association
list of key/value strings. -/

abbrev LocalStorage := List (String × String)

def getItem (key : String) (st : LocalStorage) : Option String :=
  (st.find? (fun p => p.1 == key)).map (·.2)

def removeItem (key : String) (st : LocalStorage) : LocalStorage :=
  st.filter (fun p => p.1 != key)

/-- Source `authService.logout`: removes the `auth_token` and `user` entries (the
subsequent navigation to `/login` is outside the embedding). -/
def authLogout (st : LocalStorage) : LocalStorage :=
  removeItem "user" (removeItem "auth_token" st)

/-- Source `authService.getStoredToken`. -/
def getStoredToken (st : LocalStorage) : Option String :=
  getItem "auth_token" st

/-- Source `authService.getStoredUser`: `userStr ? JSON.parse(userStr) : null`.
JSON parsing of the stored string is the external `parse` function; an
empty stored string is falsy in JS and yields `null`. -/
def getStoredUser (parse : String → User) (st : LocalStorage) : Option User :=
  match getItem "user" st with
  | some s => if s = "" then none else some (parse s)
  | none => none

/-- Source `authService.isAuthenticated`: `!!this.getStoredToken()` — an empty
stored token is falsy. -/
def authIsAuthenticated (st : LocalStorage) : Bool :=
  match getStoredToken st with
  | some t => t != ""
  | none => false

/-- The zustand auth store state (`src/store/authStore.ts`). -/
structure AuthState where
  user : Option User
  isAuthenticated : Bool
  isLoading : Bool
deriving DecidableEq

/-- Source `useAuthStore.logout`: calls `authService.logout()` then
`set({user: null, isAuthenticated: false})`. -/
def storeLogout (st : LocalStorage) (a : AuthState) : LocalStorage × AuthState :=
  (authLogout st, { a with user := none, isAuthenticated := false })

/-! Form data and payload construction. -/

/-- The experience form values (zod `experienceSchema` in
`src/pages/Experience.tsx`). -/
structure ExperienceFormData where
  startYear : Int
  endYear : Option Int
  companyName : String
  description : Option String
  location : String
  skillIds : Option (List String)
deriving DecidableEq

/-- The payload type accepted by the experience service
(`ExperienceCreateData` in `src/services/experience.ts`). -/
structure ExperienceCreateData where
  startYear : Int
  endYear : Option Int
  companyName : String
  description : Option String
  location : String
  skillIds : Option (List String)
deriving DecidableEq

/-- The payload built in `ExperiencePage.onSubmit`:
`{...data, endYear: isCurrentJob ? null : data.endYear}`. -/
def buildExperiencePayload (isCurrentJob : Bool) (d : ExperienceFormData) :
    ExperienceCreateData :=
  { startYear := d.startYear
    endYear := if isCurrentJob then none else d.endYear
    companyName := d.companyName
    description := d.description
    location := d.location
    skillIds := d.skillIds }

/-- The certification form values (zod `certificationSchema` in
`src/pages/Certifications.tsx`). -/
structure CertificationFormData where
  name : String
  issuingOrganization : String
  year : Int
  description : Option String
  certificateLink : Option String
  skillIds : Option (List String)
deriving DecidableEq

/-- Source `CertificationCreateData` in `src/services/certifications.ts`. -/
structure CertificationCreateData where
  name : String
  issuingOrganization : String
  year : Int
  description : Option String
  certificateLink : Option String
  skillIds : Option (List String)
deriving DecidableEq

/-- The `certificateLink` field validator of `certificationSchema`:
`z.string().url('Invalid URL').optional().or(z.literal(''))` — an absent
value passes (optional), a present value passes when the URL check accepts
it or it is the empty literal, and otherwise fails with `Invalid URL`.
The URL well-formedness test itself is the external `isURL` predicate. -/
def validateCertificateLink (isURL : String → Bool) :
    Option String → Except String Unit
  | none => .ok ()
  | some s => if isURL s then .ok () else if s = "" then .ok () else .error "Invalid URL"

/-- The payload built in `CertificationsPage.onSubmit`:
`{...data, certificateLink: data.certificateLink || undefined}` — JS `||`
turns both an absent and an empty link into `undefined`. -/
def buildCertificationPayload (d : CertificationFormData) : CertificationCreateData :=
  { name := d.name
    issuingOrganization := d.issuingOrganization
    year := d.year
    description := d.description
    certificateLink :=
      match d.certificateLink with
      | some s => if s = "" then none else some s
      | none => none
    skillIds := d.skillIds }

/-! Search filtering. JS strings are handled at the character-list level:
`toLowerCase` maps `Char.toLower` over the characters and
`String.prototype.includes` is contiguous-sublist containment. -/

/-- Source `haystack.includes(needle)` on character lists. -/
def includesCL (haystack needle : List Char) : Bool :=
  haystack.tails.any (fun t => needle.isPrefixOf t)

/-- Source `s.toLowerCase()` as a character list. -/
def lowerCL (s : String) : List Char :=
  s.toList.map Char.toLower

/-- JS string truthiness: non-null and non-empty. -/
def strTruthy : Option String → Bool
  | some s => s != ""
  | none => false

/-- The `filteredSkills` computation of the skills page:
`skills.filter(skill => skill.name.toLowerCase().includes(searchQuery.toLowerCase()))`. -/
def filteredSkills (searchQuery : String) (skills : List Skill) : List Skill :=
  skills.filter (fun skill => includesCL (lowerCL skill.name) (lowerCL searchQuery))

/-- The `filteredExperiences` computation of the experience page: match on
companyName, location, or a truthy description. -/
def filteredExperiences (searchQuery : String) (experiences : List Experience) :
    List Experience :=
  experiences.filter (fun exp =>
    includesCL (lowerCL exp.companyName) (lowerCL searchQuery) ||
    includesCL (lowerCL exp.location) (lowerCL searchQuery) ||
    (strTruthy exp.description &&
      includesCL (lowerCL (exp.description.getD "")) (lowerCL searchQuery)))

/-- The `filteredCertifications` computation of the certifications page:
match on name, issuingOrganization, or a truthy description. -/
def filteredCertifications (searchQuery : String) (certifications : List Certification) :
    List Certification :=
  certifications.filter (fun cert =>
    includesCL (lowerCL cert.name) (lowerCL searchQuery) ||
    includesCL (lowerCL cert.issuingOrganization) (lowerCL searchQuery) ||
    (strTruthy cert.description &&
      includesCL (lowerCL (cert.description.getD "")) (lowerCL searchQuery)))

/-! Social-media entries on the user-details page
(`src/pages/UserDetails.tsx`). -/

/-- Number of `|` separators in an entry. -/
def pipeCount (s : String) : Nat :=
  s.toList.countP (fun c => c = '|')

/-- JS `String.prototype.trim()`: strip leading and trailing whitespace,
modelled at the character-list level. -/
def jsTrim (s : String) : String :=
  ⟨((s.toList.dropWhile Char.isWhitespace).reverse.dropWhile Char.isWhitespace).reverse⟩

/-- Source `handleAddSocialMedia`: when both inputs are truthy after trimming,
append `icon.trim() + "|" + url.trim()`; otherwise do nothing. -/
def handleAddSocialMedia (icon url : String) (socialMedias : List String) :
    List String :=
  if jsTrim icon != "" && jsTrim url != "" then
    socialMedias ++ [jsTrim icon ++ "|" ++ jsTrim url]
  else
    socialMedias

/-- Source `handleRemoveSocialMedia`: `socialMedias.filter((_, i) => i !== index)`. -/
def handleRemoveSocialMedia (index : Nat) (socialMedias : List String) :
    List String :=
  ((socialMedias.enum.filter (fun p => p.1 != index)).map (·.2))

/-- A user interaction with the social-media list. -/
inductive SocialOp where
  | add (icon url : String)
  | remove (index : Nat)
deriving DecidableEq

def applySocialOp (op : SocialOp) (socialMedias : List String) : List String :=
  match op with
  | .add icon url => handleAddSocialMedia icon url socialMedias
  | .remove i => handleRemoveSocialMedia i socialMedias

def applySocialOps (ops : List SocialOp) (socialMedias : List String) : List String :=
  ops.foldl (fun s op => applySocialOp op s) socialMedias

/-! The skills page controller (`src/pages/Skills.tsx`). The `useState`
cells become one state record; each handler is a pure function from the
results of the network calls it performs and the current state to the next
state plus the ordered list of observable events. -/

/-- Observable events of the skills page handlers. -/
inductive SkillsEv where
  | mutationCall
  | mutationResp (ok : Bool)
  | fetchCall
  | toastSuccess (m : String)
  | toastError (m : String)
deriving DecidableEq

structure SkillsState where
  skills : List Skill
  isLoading : Bool
  isModalOpen : Bool
  editingSkill : Option Skill
  isSubmitting : Bool
  formName : String
  formIcon : Option FileData
  iconPreview : Option String
deriving DecidableEq

/-- The skills page state on mount. -/
def skillsMountState : SkillsState :=
  { skills := [], isLoading := true, isModalOpen := false, editingSkill := none
    isSubmitting := false, formName := "", formIcon := none, iconPreview := none }

/-- Source `loadSkills`: `try { setSkills(await getAll()) } catch { toast.error }
finally { setIsLoading(false) }`. -/
def loadSkills (fetchRes : Except String (List Skill)) (s : SkillsState) :
    SkillsState × List SkillsEv :=
  match fetchRes with
  | .ok data => ({ s with skills := data, isLoading := false }, [.fetchCall])
  | .error _ =>
      ({ s with isLoading := false }, [.fetchCall, .toastError "Failed to load skills"])

/-- Source `handleCloseModal` of the skills page: close the modal, clear the
editing target, reset the form, clear the preview. -/
def skillsCloseModal (s : SkillsState) : SkillsState :=
  { s with isModalOpen := false, editingSkill := none
           formName := "", formIcon := none, iconPreview := none }

/-- Source `Skills.onSubmit`. The create/update response and the refetch
response are passed in; `mutationCall`/`mutationResp` mark the request being
issued and its response arriving. When no icon file is selected and no skill
is being edited, the submission is blocked locally before any network call.
The `finally` block resets `isSubmitting`. -/
def skillsOnSubmit (mutRes : Except String Skill)
    (fetchRes : Except String (List Skill)) (s : SkillsState) :
    SkillsState × List SkillsEv :=
  let s1 := { s with isSubmitting := true }
  if s1.formIcon.isSome || s1.editingSkill.isSome then
    match mutRes with
    | .ok _ =>
        let msg := if s1.editingSkill.isSome then "Skill updated successfully"
                   else "Skill created successfully"
        let load := loadSkills fetchRes s1
        ({ skillsCloseModal load.1 with isSubmitting := false },
         [.mutationCall, .mutationResp true, .toastSuccess msg] ++ load.2)
    | .error e =>
        ({ s1 with isSubmitting := false },
         [.mutationCall, .mutationResp false, .toastError e])
  else
    ({ s1 with isSubmitting := false },
     [.toastError "Icon is required for new skills"])

/-! The experience page controller (`src/pages/Experience.tsx`). -/

/-- Observable events of the experience page handlers; the mutation call
carries the payload handed to the experience service. -/
inductive ExpEv where
  | mutationCall (payload : ExperienceCreateData)
  | mutationResp (ok : Bool)
  | fetchCall
  | toastSuccess (m : String)
  | toastError (m : String)
deriving DecidableEq

structure ExperienceState where
  experiences : List Experience
  skills : List Skill
  isLoading : Bool
  isModalOpen : Bool
  editingExperience : Option Experience
  isSubmitting : Bool
  isCurrentJob : Bool
  form : ExperienceFormData
deriving DecidableEq

/-- The form contents after `reset()` (the `defaultValues` of `useForm`). -/
def experienceFormDefaults : ExperienceFormData :=
  { startYear := 0, endYear := none, companyName := "", description := none
    location := "", skillIds := some [] }

/-- The experience page state on mount. -/
def experienceMountState : ExperienceState :=
  { experiences := [], skills := [], isLoading := true, isModalOpen := false
    editingExperience := none, isSubmitting := false, isCurrentJob := false
    form := experienceFormDefaults }

/-- Source `ExperiencePage.loadData`: `Promise.all` of the experience fetch
and the skills fetch; both state cells are written only when both succeed,
and a single toast is shown when either fails. -/
def experienceLoadData (expRes : Except String (List Experience))
    (skillsRes : Except String (List Skill)) (s : ExperienceState) :
    ExperienceState × List ExpEv :=
  match expRes, skillsRes with
  | .ok es, .ok sk =>
      ({ s with experiences := es, skills := sk, isLoading := false }, [.fetchCall])
  | _, _ =>
      ({ s with isLoading := false }, [.fetchCall, .toastError "Failed to load data"])

/-- Source `handleCloseModal` of the experience page. -/
def experienceCloseModal (s : ExperienceState) : ExperienceState :=
  { s with isModalOpen := false, editingExperience := none
           form := experienceFormDefaults, isCurrentJob := false }

/-- Source `ExperiencePage.onSubmit`: build the payload from the form with
`endYear` forced to null while `isCurrentJob` is set, call create/update,
and on success toast, refetch both lists, and close the modal; on failure
toast the error and leave everything else as it was. -/
def experienceOnSubmit (mutRes : Except String Experience)
    (expRes : Except String (List Experience))
    (skillsRes : Except String (List Skill)) (s : ExperienceState) :
    ExperienceState × List ExpEv :=
  let s1 := { s with isSubmitting := true }
  let payload := buildExperiencePayload s1.isCurrentJob s1.form
  match mutRes with
  | .ok _ =>
      let msg := if s1.editingExperience.isSome then "Experience updated successfully"
                 else "Experience created successfully"
      let load := experienceLoadData expRes skillsRes s1
      ({ experienceCloseModal load.1 with isSubmitting := false },
       [.mutationCall payload, .mutationResp true, .toastSuccess msg] ++ load.2)
  | .error e =>
      ({ s1 with isSubmitting := false },
       [.mutationCall payload, .mutationResp false, .toastError e])

/-! Specification-side search predicates, written from the spec's wording
(case-insensitive substring match over the documented fields, with the
description participating when non-null), to be compared with the page
filter functions above. -/

/-- Modelled from the spec: an experience matches when the lowercased query
is a substring of the lowercase companyName, location, or non-null
description. -/
def specExperienceMatch (q : String) (e : Experience) : Bool :=
  includesCL (lowerCL e.companyName) (lowerCL q) ||
  includesCL (lowerCL e.location) (lowerCL q) ||
  (match e.description with
   | some d => includesCL (lowerCL d) (lowerCL q)
   | none => false)

/-- Modelled from the spec: a certification matches when the lowercased
query is a substring of the lowercase name, issuingOrganization, or
non-null description. -/
def specCertificationMatch (q : String) (c : Certification) : Bool :=
  includesCL (lowerCL c.name) (lowerCL q) ||
  includesCL (lowerCL c.issuingOrganization) (lowerCL q) ||
  (match c.description with
   | some d => includesCL (lowerCL d) (lowerCL q)
   | none => false)

/-! Helper lemmas. -/

theorem snd_mem_of_mem_enumFrom {α : Type} {p : Nat × α} {l : List α} {n : Nat}
    (h : p ∈ l.enumFrom n) : p.2 ∈ l := by
  induction l generalizing n with
  | nil => simp [List.enumFrom] at h
  | cons a t ih =>
    simp only [List.enumFrom, List.mem_cons] at h
    rcases h with h | h
    · subst h; simp
    · exact List.mem_cons_of_mem a (ih h)

theorem mem_of_mem_removeSocialMedia {i : Nat} {l : List String} {s : String}
    (h : s ∈ handleRemoveSocialMedia i l) : s ∈ l := by
  unfold handleRemoveSocialMedia at h
  obtain ⟨p, hp, hps⟩ := List.mem_map.mp h
  have hp' : p ∈ l.enum := List.mem_of_mem_filter hp
  have := snd_mem_of_mem_enumFrom (l := l) (n := 0) hp'
  rwa [hps] at this

theorem toList_append (a b : String) : (a ++ b).toList = a.toList ++ b.toList := by
  simp [String.toList, String.data_append]

theorem pipeCount_append (a b : String) :
    pipeCount (a ++ b) = pipeCount a + pipeCount b := by
  simp [pipeCount, toList_append, List.countP_append]

theorem includesCL_nil_needle (h : List Char) : includesCL h [] = true := by
  simp only [includesCL, List.any_eq_true]
  refine ⟨h, ?_, by simp [List.isPrefixOf]⟩
  simp [List.mem_tails]

theorem includesCL_nil_haystack (n : List Char) :
    includesCL [] n = true ↔ n = [] := by
  cases n <;> simp [includesCL, List.isPrefixOf]

theorem lowerCL_empty : lowerCL "" = [] := rfl

theorem getItem_authLogout_token (st : LocalStorage) :
    getItem "auth_token" (authLogout st) = none := by
  have h : (removeItem "user" (removeItem "auth_token" st)).find?
      (fun p => p.1 == "auth_token") = none := by
    apply List.find?_eq_none.mpr
    intro x hx
    have hx' : x ∈ removeItem "auth_token" st := List.mem_of_mem_filter hx
    have := List.of_mem_filter hx'
    simpa using this
  simp [authLogout, getItem, h]

theorem getItem_authLogout_user (st : LocalStorage) :
    getItem "user" (authLogout st) = none := by
  have h : (removeItem "user" (removeItem "auth_token" st)).find?
      (fun p => p.1 == "user") = none := by
    apply List.find?_eq_none.mpr
    intro x hx
    have := List.of_mem_filter hx
    simpa using this
  simp [authLogout, getItem, h]

/-- C8: logout removes both the `auth_token` and `user` entries from
persisted storage, resets the in-memory session state to `user = null` and
`isAuthenticated = false`, and afterwards `getStoredToken`, `getStoredUser`
and `isAuthenticated` all report an unauthenticated session. -/
theorem logout_clears_session (st : LocalStorage) (a : AuthState)
    (parse : String → User) :
    getItem "auth_token" (storeLogout st a).1 = none ∧
    getItem "user" (storeLogout st a).1 = none ∧
    (storeLogout st a).2.user = none ∧
    (storeLogout st a).2.isAuthenticated = false ∧
    getStoredToken (storeLogout st a).1 = none ∧
    getStoredUser parse (storeLogout st a).1 = none ∧
    authIsAuthenticated (storeLogout st a).1 = false := by
  refine ⟨getItem_authLogout_token st, getItem_authLogout_user st, rfl, rfl, ?_, ?_, ?_⟩
  · exact getItem_authLogout_token st
  · simp [getStoredUser, storeLogout, getItem_authLogout_user st]
  · simp [authIsAuthenticated, getStoredToken, storeLogout, getItem_authLogout_token st]

/-- C10: `compressImage` never propagates an error: when the underlying
compression transform fails it returns the original input file unchanged,
and when it succeeds the returned file keeps the input's name. (The
function is total into `FileData`: every transform failure is caught.) -/
theorem compressImage_never_fails_and_keeps_name (now : Nat)
    (file compressed : FileData) (e : String) :
    compressImage now file (.error e) = file ∧
    (compressImage now file (.ok compressed)).name = file.name :=
  ⟨rfl, rfl⟩

/-- C3: for every submission of the experience form, when the
`isCurrentJob` toggle is set the payload handed to create/update has
`endYear = null`, regardless of the raw end-year value held in the form. -/
theorem isCurrentJob_forces_endYear_null (mutRes : Except String Experience)
    (expRes : Except String (List Experience))
    (skillsRes : Except String (List Skill)) (s : ExperienceState) :
    (experienceOnSubmit mutRes expRes skillsRes { s with isCurrentJob := true }).2.head? =
      some (.mutationCall (buildExperiencePayload true s.form)) ∧
    (buildExperiencePayload true s.form).endYear = none := by
  refine ⟨?_, rfl⟩
  cases mutRes <;> rfl

/-- C6: submitting the skill form with no icon file selected while no skill
is being edited is blocked locally with the message
`Icon is required for new skills`: the resulting trace contains no network
call, and the state (skills list, open modal, form contents) is unchanged
apart from the `isSubmitting` flag being reset by the `finally` block. -/
theorem skills_create_without_icon_blocked (mutRes : Except String Skill)
    (fetchRes : Except String (List Skill)) (s : SkillsState) :
    skillsOnSubmit mutRes fetchRes { s with formIcon := none, editingSkill := none } =
      ({ s with formIcon := none, editingSkill := none, isSubmitting := false },
       [.toastError "Icon is required for new skills"]) := by
  cases mutRes <;> rfl

/-- C4: on both the skills page and the experience page, a failed initial
fetch on mount leaves the page out of `Loading` (`isLoading = false`) with
the collection still empty, surfaces exactly one error toast, and issues
exactly one fetch (no retry). -/
theorem initial_fetch_failure_reaches_idle_empty (e : String)
    (expRes : Except String (List Experience))
    (skillsRes : Except String (List Skill)) :
    loadSkills (.error e) skillsMountState =
      ({ skillsMountState with isLoading := false },
       [.fetchCall, .toastError "Failed to load skills"]) ∧
    experienceLoadData (.error e) skillsRes experienceMountState =
      ({ experienceMountState with isLoading := false },
       [.fetchCall, .toastError "Failed to load data"]) ∧
    experienceLoadData expRes (.error e) experienceMountState =
      ({ experienceMountState with isLoading := false },
       [.fetchCall, .toastError "Failed to load data"]) := by
  refine ⟨rfl, ?_, ?_⟩
  · cases skillsRes <;> rfl
  · cases expRes <;> rfl

/-- C1 counterexample: on the envelope
`{success: false, data: absent, error: "boom"}` the user-details `get`
operation does not fail with the envelope's error: it returns `null`,
whereas the uniform unwrap used by every other operation would surface
`Except.error "boom"`. -/
theorem userDetailsGet_swallows_error :
    userDetailsGet { success := false, data := none, error := some "boom" } = none ∧
    unwrapData (T := UserDetails) "Failed to fetch user details"
      { success := false, data := none, error := some "boom" } = .error "boom" := by
  constructor
  · rfl
  · simp [unwrapData, envMessage]

/-- C1 amended: every throwing resource-client operation is the uniform
unwrap with its operation-specific fallback, and on `success = false` or an
absent data field it fails with a single error whose message is the
envelope's error string when that is present and non-empty and the fallback
otherwise; delete operations fail on `success = false` without inspecting
data. The exception is the user-details `get` operation, which returns
`null` instead of failing in that situation. -/
theorem resource_client_error_uniform {T : Type} (fallback fb e : String)
    (r : ApiResponse T) (rd : ApiResponse Unit) (ru : ApiResponse UserDetails)
    (h : r.success = false ∨ r.data = none)
    (hd : rd.success = false)
    (hu : ru.success = false ∨ ru.data = none)
    (he : e ≠ "") :
    unwrapData fallback r = .error (envMessage r.error fallback) ∧
    unwrapSuccess fallback rd = .error (envMessage rd.error fallback) ∧
    userDetailsGet ru = none ∧
    envMessage (some e) fb = e ∧
    envMessage none fb = fb ∧
    skillsGetAll = unwrapData "Failed to fetch skills" ∧
    skillsGetById = unwrapData "Failed to fetch skill" ∧
    skillsCreate = unwrapData "Failed to create skill" ∧
    skillsUpdate = unwrapData "Failed to update skill" ∧
    skillsDelete = unwrapSuccess "Failed to delete skill" ∧
    experienceGetAll = unwrapData "Failed to fetch experience" ∧
    experienceGetById = unwrapData "Failed to fetch experience" ∧
    experienceCreate = unwrapData "Failed to create experience" ∧
    experienceUpdate = unwrapData "Failed to update experience" ∧
    experienceDelete = unwrapSuccess "Failed to delete experience" ∧
    certificationsGetAll = unwrapData "Failed to fetch certifications" ∧
    certificationsGetById = unwrapData "Failed to fetch certification" ∧
    certificationsCreate = unwrapData "Failed to create certification" ∧
    certificationsUpdate = unwrapData "Failed to update certification" ∧
    certificationsDelete = unwrapSuccess "Failed to delete certification" ∧
    educationGetAll = unwrapData "Failed to fetch education" ∧
    educationGetById = unwrapData "Failed to fetch education" ∧
    educationCreate = unwrapData "Failed to create education" ∧
    educationUpdate = unwrapData "Failed to update education" ∧
    educationDelete = unwrapSuccess "Failed to delete education" ∧
    projectsGetAll = unwrapData "Failed to fetch projects" ∧
    projectsGetBySlug = unwrapData "Failed to fetch project" ∧
    projectsCreate = unwrapData "Failed to create project" ∧
    projectsUpdate = unwrapData "Failed to update project" ∧
    projectsDelete = unwrapSuccess "Failed to delete project" ∧
    userDetailsCreate = unwrapData "Failed to create user details" ∧
    userDetailsUpdate = unwrapData "Failed to update user details" := by
  refine ⟨?_, ?_, ?_, ?_, rfl, rfl, rfl, rfl, rfl, rfl, rfl, rfl, rfl, rfl, rfl,
    rfl, rfl, rfl, rfl, rfl, rfl, rfl, rfl, rfl, rfl, rfl, rfl, rfl, rfl, rfl,
    rfl, rfl⟩
  · rcases h with h | h
    · rcases hr : r.data with _ | d <;> simp [unwrapData, h, hr]
    · rcases hr : r.success with _ | _ <;> simp [unwrapData, h, hr]
  · simp [unwrapSuccess, hd]
  · rcases hu with h | h
    · rcases hr : ru.data with _ | d <;> simp [userDetailsGet, h, hr]
    · rcases hr : ru.success with _ | _ <;> simp [userDetailsGet, h, hr]
  · simp [envMessage, he]

/-- Witness for the amended C1 theorem at concrete envelopes. -/
theorem resource_client_error_uniform_witness :
    unwrapData "fb" { success := false, data := (none : Option Nat), error := some "srv" } =
      .error (envMessage (some "srv") "fb") ∧
    unwrapSuccess "fb" { success := false, data := none, error := none } =
      .error (envMessage none "fb") ∧
    userDetailsGet { success := false, data := none, error := some "srv" } = none ∧
    envMessage (some "srv") "fb" = "srv" ∧
    envMessage none "fb" = "fb" ∧
    skillsGetAll = unwrapData "Failed to fetch skills" ∧
    skillsGetById = unwrapData "Failed to fetch skill" ∧
    skillsCreate = unwrapData "Failed to create skill" ∧
    skillsUpdate = unwrapData "Failed to update skill" ∧
    skillsDelete = unwrapSuccess "Failed to delete skill" ∧
    experienceGetAll = unwrapData "Failed to fetch experience" ∧
    experienceGetById = unwrapData "Failed to fetch experience" ∧
    experienceCreate = unwrapData "Failed to create experience" ∧
    experienceUpdate = unwrapData "Failed to update experience" ∧
    experienceDelete = unwrapSuccess "Failed to delete experience" ∧
    certificationsGetAll = unwrapData "Failed to fetch certifications" ∧
    certificationsGetById = unwrapData "Failed to fetch certification" ∧
    certificationsCreate = unwrapData "Failed to create certification" ∧
    certificationsUpdate = unwrapData "Failed to update certification" ∧
    certificationsDelete = unwrapSuccess "Failed to delete certification" ∧
    educationGetAll = unwrapData "Failed to fetch education" ∧
    educationGetById = unwrapData "Failed to fetch education" ∧
    educationCreate = unwrapData "Failed to create education" ∧
    educationUpdate = unwrapData "Failed to update education" ∧
    educationDelete = unwrapSuccess "Failed to delete education" ∧
    projectsGetAll = unwrapData "Failed to fetch projects" ∧
    projectsGetBySlug = unwrapData "Failed to fetch project" ∧
    projectsCreate = unwrapData "Failed to create project" ∧
    projectsUpdate = unwrapData "Failed to update project" ∧
    projectsDelete = unwrapSuccess "Failed to delete project" ∧
    userDetailsCreate = unwrapData "Failed to create user details" ∧
    userDetailsUpdate = unwrapData "Failed to update user details" :=
  resource_client_error_uniform "fb" "fb" "srv"
    { success := false, data := (none : Option Nat), error := some "srv" }
    { success := false, data := none, error := none }
    { success := false, data := none, error := some "srv" }
    (Or.inl rfl) rfl (Or.inl rfl) (by decide)

/-- C5 counterexample: an icon-name input that itself contains a `|` makes
the add handler produce an entry with two `|` separators, so the invariant
does not hold for all icon-name and URL inputs the user may type. -/
theorem socialMedia_two_pipes :
    handleAddSocialMedia "a|b" "c" [] = ["a|b|c"] ∧ pipeCount "a|b|c" = 2 := by
  constructor <;> decide

/-- Boolean safety of one social-media operation for the amended invariant:
an add is safe when neither trimmed input contains a `|`. -/
def socialOpSafe : SocialOp → Bool
  | .add icon url => pipeCount (jsTrim icon) == 0 && pipeCount (jsTrim url) == 0
  | .remove _ => true

theorem applySocialOp_preserves (op : SocialOp) (l : List String)
    (h0 : l.all (fun s => pipeCount s == 1) = true)
    (hop : socialOpSafe op = true) :
    (applySocialOp op l).all (fun s => pipeCount s == 1) = true := by
  cases op with
  | add icon url =>
    simp only [socialOpSafe, Bool.and_eq_true, beq_iff_eq] at hop
    obtain ⟨h1, h2⟩ := hop
    simp only [applySocialOp, handleAddSocialMedia]
    split
    · rw [List.all_append, Bool.and_eq_true]
      refine ⟨h0, ?_⟩
      simp only [List.all_cons, List.all_nil, Bool.and_true, beq_iff_eq]
      rw [pipeCount_append, pipeCount_append, h1, h2]
      decide
    · exact h0
  | remove i =>
    simp only [applySocialOp]
    rw [List.all_eq_true] at h0 ⊢
    intro x hx
    exact h0 x (mem_of_mem_removeSocialMedia hx)

/-- C5 amended: along every sequence of add/remove operations, every entry
of `socialMedias` contains exactly one `|` separator, provided every entry
of the starting list does and no add operation's trimmed icon-name or URL
input itself contains a `|`; for inputs containing `|` the invariant fails
(see the counterexample). -/
theorem socialMedias_pipe_invariant (ops : List SocialOp) (init : List String)
    (h0 : init.all (fun s => pipeCount s == 1) = true)
    (hops : ops.all socialOpSafe = true) :
    (applySocialOps ops init).all (fun s => pipeCount s == 1) = true := by
  induction ops generalizing init with
  | nil => simpa [applySocialOps] using h0
  | cons op rest ih =>
    rw [List.all_cons, Bool.and_eq_true] at hops
    exact ih (applySocialOp op init) (applySocialOp_preserves op init h0 hops.1) hops.2

/-- Witness for the amended C5 theorem at a concrete operation sequence. -/
theorem socialMedias_pipe_invariant_witness :
    (applySocialOps [SocialOp.add " github " "https://github.com/x", SocialOp.remove 0]
      ["ln|https://l.in"]).all (fun s => pipeCount s == 1) = true :=
  socialMedias_pipe_invariant
    [SocialOp.add " github " "https://github.com/x", SocialOp.remove 0]
    ["ln|https://l.in"] (by decide) (by decide)

/-- C9: the certification form's `certificateLink` is accepted exactly when
it is well-formed per the URL check or the empty string (an absent value is
also accepted by the optional schema), rejection carries the field-level
message `Invalid URL`, and an empty (or absent) link is omitted from the
payload handed to create/update. -/
theorem certificateLink_validation_and_payload (isURL : String → Bool)
    (d : CertificationFormData) (s : String) :
    (validateCertificateLink isURL (some s) = .ok () ↔ isURL s = true ∨ s = "") ∧
    (validateCertificateLink isURL (some s) = .error "Invalid URL" ↔
      ¬(isURL s = true ∨ s = "")) ∧
    validateCertificateLink isURL none = .ok () ∧
    (buildCertificationPayload { d with certificateLink := some "" }).certificateLink =
      none ∧
    (buildCertificationPayload { d with certificateLink := none }).certificateLink =
      none ∧
    (buildCertificationPayload { d with certificateLink := some s }).certificateLink =
      (if s = "" then none else some s) := by
  refine ⟨?_, ?_, rfl, by simp [buildCertificationPayload], rfl,
    by simp [buildCertificationPayload]⟩
  · by_cases hu : isURL s <;> by_cases hs : s = "" <;>
      simp [validateCertificateLink, hu, hs]
  · by_cases hu : isURL s <;> by_cases hs : s = "" <;>
      simp [validateCertificateLink, hu, hs]

theorem match_clause_eq (q cn loc : String) (d : Option String) :
    (includesCL (lowerCL cn) (lowerCL q) || includesCL (lowerCL loc) (lowerCL q) ||
     (strTruthy d && includesCL (lowerCL (d.getD "")) (lowerCL q))) =
    (includesCL (lowerCL cn) (lowerCL q) || includesCL (lowerCL loc) (lowerCL q) ||
     (match d with
      | some s => includesCL (lowerCL s) (lowerCL q)
      | none => false)) := by
  cases d with
  | none => simp [strTruthy]
  | some s =>
    by_cases hs : s = ""
    · subst hs
      cases hC : includesCL (lowerCL "") (lowerCL q) with
      | false => simp [strTruthy, hC]
      | true =>
        have hq : lowerCL q = [] := (includesCL_nil_haystack (lowerCL q)).mp hC
        rw [hq]
        simp [strTruthy, includesCL_nil_needle]
    · have hb : (s == "") = false := beq_eq_false_iff_ne.mpr hs
      simp [strTruthy, bne, hb]

/-- C7: on each page the search filter keeps exactly those entities for
which the lowercased query is a substring of the lowercase of one of the
documented fields (experience: companyName, location, or non-null
description; certification: name, issuingOrganization, or non-null
description; skill: name), and the filtered list is a sublist of the loaded
collection, which the filter takes as an immutable input and leaves intact. -/
theorem search_filter_characterization (q : String) (ls : List Skill)
    (le : List Experience) (lc : List Certification) (x : Skill)
    (y : Experience) (z : Certification) :
    (x ∈ filteredSkills q ls ↔
      x ∈ ls ∧ includesCL (lowerCL x.name) (lowerCL q) = true) ∧
    (y ∈ filteredExperiences q le ↔ y ∈ le ∧ specExperienceMatch q y = true) ∧
    (z ∈ filteredCertifications q lc ↔ z ∈ lc ∧ specCertificationMatch q z = true) ∧
    (filteredSkills q ls).Sublist ls ∧
    (filteredExperiences q le).Sublist le ∧
    (filteredCertifications q lc).Sublist lc := by
  refine ⟨?_, ?_, ?_, List.filter_sublist _, List.filter_sublist _,
    List.filter_sublist _⟩
  · simp [filteredSkills, List.mem_filter]
  · have h := match_clause_eq q y.companyName y.location y.description
    simp only [filteredExperiences, List.mem_filter, specExperienceMatch]
    rw [h]
  · have h := match_clause_eq q z.name z.issuingOrganization z.description
    simp only [filteredCertifications, List.mem_filter, specCertificationMatch]
    rw [h]

def isSkillsFetch : SkillsEv → Bool
  | .fetchCall => true
  | _ => false

def isSkillsMutResp : SkillsEv → Bool
  | .mutationResp _ => true
  | _ => false

def isExpFetch : ExpEv → Bool
  | .fetchCall => true
  | _ => false

def isExpMutResp : ExpEv → Bool
  | .mutationResp _ => true
  | _ => false

/-- Whether some fetch event occurs in the trace strictly before the first
mutation response; `false` means every refetch happens only after the
mutation's response is received. -/
def fetchPrecedesResp {α : Type} (isFetch isResp : α → Bool) (tr : List α) : Bool :=
  (tr.takeWhile (fun ev => !(isResp ev))).any isFetch

/-- C2: on the skills and experience pages, a failed create/update leaves
the page state untouched apart from the `isSubmitting` reset — the modal
stays open with the form intact, the collection is unchanged, and the trace
shows the error toast and no refetch; a successful create/update first
toasts success, then refetches (never before the mutation's response), the
refetched data is installed, and the modal closes. The skills cases pin an
icon file or an editing target, since those are the submissions that pass
the local icon guard. -/
theorem submit_flow_error_and_success (s : SkillsState) (t : ExperienceState)
    (f : FileData) (sk v : Skill) (ex : Experience) (e : String)
    (fr : Except String (List Skill)) (er : Except String (List Experience))
    (sr : Except String (List Skill)) (data : List Skill)
    (edata : List Experience) (sdata : List Skill) :
    skillsOnSubmit (.error e) fr { s with formIcon := some f } =
      ({ s with formIcon := some f, isSubmitting := false },
       [.mutationCall, .mutationResp false, .toastError e]) ∧
    skillsOnSubmit (.error e) fr { s with editingSkill := some sk } =
      ({ s with editingSkill := some sk, isSubmitting := false },
       [.mutationCall, .mutationResp false, .toastError e]) ∧
    (skillsOnSubmit (.ok v) fr { s with formIcon := some f }).2 =
      [.mutationCall, .mutationResp true,
       .toastSuccess (if s.editingSkill.isSome then "Skill updated successfully"
                      else "Skill created successfully")] ++
      (loadSkills fr { s with formIcon := some f, isSubmitting := true }).2 ∧
    (skillsOnSubmit (.ok v) fr { s with formIcon := some f }).1.isModalOpen = false ∧
    fetchPrecedesResp isSkillsFetch isSkillsMutResp
      (skillsOnSubmit (.ok v) fr { s with formIcon := some f }).2 = false ∧
    (skillsOnSubmit (.ok v) (.ok data) { s with formIcon := some f }).1.skills = data ∧
    experienceOnSubmit (.error e) er sr t =
      ({ t with isSubmitting := false },
       [.mutationCall (buildExperiencePayload t.isCurrentJob t.form),
        .mutationResp false, .toastError e]) ∧
    (experienceOnSubmit (.ok ex) er sr t).2 =
      [.mutationCall (buildExperiencePayload t.isCurrentJob t.form),
       .mutationResp true,
       .toastSuccess (if t.editingExperience.isSome then "Experience updated successfully"
                      else "Experience created successfully")] ++
      (experienceLoadData er sr { t with isSubmitting := true }).2 ∧
    (experienceOnSubmit (.ok ex) er sr t).1.isModalOpen = false ∧
    fetchPrecedesResp isExpFetch isExpMutResp
      (experienceOnSubmit (.ok ex) er sr t).2 = false ∧
    (experienceOnSubmit (.ok ex) (.ok edata) (.ok sdata) t).1.experiences = edata := by
  obtain ⟨s1, s2, s3, s4, s5, s6, ficon, s8⟩ := s
  refine ⟨rfl, ?_, rfl, rfl, rfl, rfl, rfl, rfl, rfl, rfl, rfl⟩
  cases ficon <;> rfl
